import Mathlib

/-!
Shallow embedding of `src/main.py`: a FastAPI webhook that provisions a
GitHub repository, pushes files, enables GitHub Pages and notifies an
evaluator URL.  Outbound HTTP is modelled by an oracle `Nat → CallResult`
giving the outcome of the i-th outbound call; every operation threads the
index of the next call and records the calls it makes as a list of events.
Python exceptions (network errors raised by `requests`, `r.json()` parse
failures outside a `try`) are modelled by `PyResult.exn`.
-/

/-- The JSON body of an HTTP response, restricted to the fields `main.py`
ever reads.  `parseable = false` models a body on which `.json()` raises
(or does not have the shape the code indexes into). -/
structure Body where
  parseable : Bool
  errors : List String
  commitSha : Option String
  contentSha : Option String
  sha : Option String
deriving Repr, DecidableEq

structure Response where
  status : Nat
  body : Body
deriving Repr, DecidableEq

/-- Outcome of one outbound HTTP call: a response, or a network-level
exception raised by the `requests` library. -/
inductive CallResult where
  | response (r : Response)
  | netError
deriving Repr, DecidableEq

/-- Result of running a piece of Python code: a value, or a propagated
exception. -/
inductive PyResult (α : Type) where
  | ok (val : α)
  | exn
deriving Repr, DecidableEq

/-- One outbound call made by the service, as recorded in the trace. -/
inductive Event where
  | createRepoCall (name : String)
  | putFile (repo path : String) (sha : Option String)
  | getFile (repo path : String)
  | pagesCall (repo : String)
  | notifyPost (url : String)
  | sleep (secs : Nat)
deriving Repr, DecidableEq

/-- `pat` occurs as a contiguous substring of the character list. -/
def strContainsAux (pat : List Char) : List Char → Bool
  | [] => pat.isEmpty
  | c :: rest => pat.isPrefixOf (c :: rest) || strContainsAux pat (rest)

/-- Python `s.lower()`: lower-case each character (`String.toLower`
in core is not kernel-reducible, so map over the characters directly). -/
def pyLower (s : String) : String :=
  String.mk (s.data.map Char.toLower)

/-- Python `pat in s` for strings. -/
def strContains (s pat : String) : Bool :=
  strContainsAux pat.toList s.toList

/-- Python `a or b` on optional strings: `None` and `""` are falsy. -/
def pyOr (a b : Option String) : Option String :=
  match a with
  | some s => if s = "" then b else some s
  | none => b

/-- `data.get("commit", \x7b\x7d).get("sha") or data.get("content", \x7b\x7d).get("sha")`. -/
def extractSha (b : Body) : Option String :=
  pyOr b.commitSha b.contentSha

/-- The sha `push_file` reports for a 200/201 response: extracted when the
body parses, `None` when `.json()` raises (swallowed by the `try`). -/
def shaOfResp (r : Response) : Option String :=
  if r.body.parseable then extractSha r.body else none

/-- `create_repo` from `main.py`: POST /user/repos; 201 is success; on 422
scan the structured error list for an "already exists" message
(case-insensitive); anything else is failure.  A network exception
propagates (`gh_request` has no try/except). -/
def create_repo (w : Nat → CallResult) (k : Nat) (repo_name : String) :
    PyResult Bool × Nat × List Event :=
  let ev := [Event.createRepoCall repo_name]
  match w k with
  | .netError => (.exn, k + 1, ev)
  | .response r =>
    if r.status = 201 then (.ok true, k + 1, ev)
    else if r.status = 422 then
      if r.body.parseable then
        if r.body.errors.any (fun m => strContains (pyLower m) "already exists")
        then (.ok true, k + 1, ev)
        else (.ok false, k + 1, ev)
      else (.ok false, k + 1, ev)
    else (.ok false, k + 1, ev)

/-- `push_file` from `main.py`: PUT the file; 200/201 is success (sha
extracted when the body parses, `None` otherwise); on 422, GET the file,
and when the GET returns 200 with a truthy `sha`, retry the PUT once with
that sha; every other path returns `(False, None)`.  `get_r.json()` and
`r2.json()` are called outside any `try`, so an unparseable body there
propagates an exception. -/
def push_file (w : Nat → CallResult) (k : Nat) (repo_name filename content : String) :
    PyResult (Bool × Option String) × Nat × List Event :=
  let e1 := Event.putFile repo_name filename none
  match w k with
  | .netError => (.exn, k + 1, [e1])
  | .response r =>
    if r.status = 200 ∨ r.status = 201 then
      (.ok (true, shaOfResp r), k + 1, [e1])
    else if r.status = 422 then
      let e2 := Event.getFile repo_name filename
      match w (k + 1) with
      | .netError => (.exn, k + 2, [e1, e2])
      | .response g =>
        if g.status = 200 then
          if g.body.parseable then
            match g.body.sha with
            | some s =>
              if s = "" then (.ok (false, none), k + 2, [e1, e2])
              else
                let e3 := Event.putFile repo_name filename (some s)
                match w (k + 2) with
                | .netError => (.exn, k + 3, [e1, e2, e3])
                | .response r2 =>
                  if r2.status = 200 ∨ r2.status = 201 then
                    if r2.body.parseable then
                      (.ok (true, extractSha r2.body), k + 3, [e1, e2, e3])
                    else (.exn, k + 3, [e1, e2, e3])
                  else (.ok (false, none), k + 3, [e1, e2, e3])
            | none => (.ok (false, none), k + 2, [e1, e2])
          else (.exn, k + 2, [e1, e2])
        else (.ok (false, none), k + 2, [e1, e2])
    else (.ok (false, none), k + 1, [e1])

/-- `enable_pages` from `main.py`: POST the pages configuration; success
iff the status is 201 or 204. -/
def enable_pages (w : Nat → CallResult) (k : Nat) (repo_name : String) :
    PyResult Bool × Nat × List Event :=
  match w k with
  | .netError => (.exn, k + 1, [Event.pagesCall repo_name])
  | .response r =>
    (.ok (decide (r.status = 201 ∨ r.status = 204)), k + 1, [Event.pagesCall repo_name])

/-- The payload assembled by the handler and posted to the evaluator. -/
structure Payload where
  email : Option String
  task : String
  repo : String
  pages_url : String
  commit : Option String
deriving Repr, DecidableEq

/-- One notification attempt succeeds iff the call returns a response with
status in [200, 300); a network exception is caught and counts as failure. -/
def attemptOK (w : Nat → CallResult) (k : Nat) : Bool :=
  match w k with
  | .response r => decide (200 ≤ r.status ∧ r.status < 300)
  | .netError => false

/-- The retry loop of `notify_evaluator`: one POST per remaining delay,
returning on the first in-range response, sleeping the delay after each
failed attempt (including the last). -/
def notifyLoop (w : Nat → CallResult) (url : String) :
    Nat → List Nat → Bool × Nat × List Event
  | k, [] => (false, k, [])
  | k, d :: rest =>
    if attemptOK w k then (true, k + 1, [Event.notifyPost url])
    else
      let r := notifyLoop w url (k + 1) rest
      (r.1, r.2.1, Event.notifyPost url :: Event.sleep d :: r.2.2)

/-- `notify_evaluator` from `main.py`: its body loops over the fixed delay
list `[2, 4, 8, 16]`; the `max_retries` parameter (default 4 in the
source) is never read. -/
def notify_evaluator (w : Nat → CallResult) (k : Nat) (evaluation_url : String)
    (payload : Payload) (max_retries : Nat) : Bool × Nat × List Event :=
  notifyLoop w evaluation_url k [2, 4, 8, 16]

/-- The JSON body of an inbound request, restricted to the fields the
handler reads; `none` models an absent field (`dict.get` gives `None`). -/
structure InboundRequest where
  secret : Option String
  task : Option String
  email : Option String
  evaluation_url : Option String
deriving Repr, DecidableEq

/-- The JSON value returned by the handler. -/
inductive HandleResult where
  | error (reason : String)
  | success (repo pages_url : String) (commit : Option String)
deriving Repr, DecidableEq

/-- The generated `index.html` content (the f-string in `handle`). -/
def htmlFor (repo_name : String) : String :=
  "\n    <!DOCTYPE html>\n    <html><head><meta charset=\x27utf-8\x27><title>"
    ++ repo_name ++ "</title></head>\n    <body><h1>Hello from " ++ repo_name
    ++ "</h1><p>Auto-deployed with FastAPI.</p></body></html>\n    "

/-- The generated README content. -/
def readmeFor (repo_name task_id : String) : String :=
  "# " ++ repo_name ++ "\n\nAuto-created for task " ++ task_id ++ "."

/-- The generated LICENSE content (`tm_year` modelled by the `year`
parameter). -/
def licenseFor (year : Nat) (user : String) : String :=
  "MIT License\n\nCopyright (c) " ++ toString year ++ " " ++ user ++
  "\n\nPermission is hereby granted, free of charge, to any person obtaining a copy\nof this software and associated documentation files (the \"Software\"), to deal\nin the Software without restriction, including without limitation the rights\nto use, copy, modify, merge, publish, distribute, sublicense, and/or sell\ncopies of the Software, and to permit persons to whom the Software is\nfurnished to do so, subject to the following conditions:\n"

/-- The request handler `handle` from `main.py`.  `now` is
`int(time.time())`, `year` is `time.localtime().tm_year`, `SECRET` and
`GITHUB_USER` are the environment values (`SECRET` is `none` when the
variable is unset). -/
def handle (w : Nat → CallResult) (now year : Nat) (SECRET : Option String)
    (GITHUB_USER : String) (req : InboundRequest) :
    PyResult HandleResult × Nat × List Event :=
  if req.secret ≠ SECRET then (.ok (.error "Invalid secret"), 0, [])
  else
    let task_id := req.task.getD "demo_task"
    let repo_name := "tds_" ++ task_id ++ "_" ++ toString (now % 10000)
    match create_repo w 0 repo_name with
    | (.exn, k1, t1) => (.exn, k1, t1)
    | (.ok cr, k1, t1) =>
      if cr = false then (.ok (.error "Failed to create repo"), k1, t1)
      else
        match push_file w k1 repo_name "index.html" (htmlFor repo_name) with
        | (.exn, k2, t2) => (.exn, k2, t1 ++ t2)
        | (.ok (ok1, sha_html), k2, t2) =>
          if ok1 = false then (.ok (.error "Failed to push index.html"), k2, t1 ++ t2)
          else
            match push_file w k2 repo_name "README.md" (readmeFor repo_name task_id) with
            | (.exn, k3, t3) => (.exn, k3, t1 ++ t2 ++ t3)
            | (.ok (ok2, sha_readme), k3, t3) =>
              if ok2 = false then
                (.ok (.error "Failed to push README.md"), k3, t1 ++ t2 ++ t3)
              else
                match push_file w k3 repo_name "LICENSE" (licenseFor year GITHUB_USER) with
                | (.exn, k4, t4) => (.exn, k4, t1 ++ t2 ++ t3 ++ t4)
                | (.ok _, k4, t4) =>
                  match enable_pages w k4 repo_name with
                  | (.exn, k5, t5) => (.exn, k5, t1 ++ t2 ++ t3 ++ t4 ++ t5)
                  | (.ok _, k5, t5) =>
                    let pages_url :=
                      "https://" ++ GITHUB_USER ++ ".github.io/" ++ repo_name ++ "/"
                    let repo_url :=
                      "https://github.com/" ++ GITHUB_USER ++ "/" ++ repo_name
                    let commit := pyOr sha_html sha_readme
                    let payload : Payload :=
                      ⟨req.email, task_id, repo_url, pages_url, commit⟩
                    let rest :=
                      match req.evaluation_url with
                      | some u =>
                        if u = "" then ((k5, []) : Nat × List Event)
                        else
                          let n := notify_evaluator w k5 u payload 4
                          (n.2.1, n.2.2)
                      | none => (k5, [])
                    (.ok (.success repo_url pages_url commit), rest.1,
                      t1 ++ t2 ++ t3 ++ t4 ++ t5 ++ rest.2)

/-- Recognizes a notification POST in a trace. -/
def isNotifyPost : Event → Bool
  | .notifyPost _ => true
  | _ => false

/-- Recognizes a retried file PUT (one that carries a sha) in a trace. -/
def isRetriedPut : Event → Bool
  | .putFile _ _ (some _) => true
  | _ => false

/-- The notifier trace when the first success happens at attempt `j`
(0-indexed): `j` failed attempts, each followed by its backoff sleep, then
the successful POST. -/
def successTrace (url : String) : Nat → List Event
  | 0 => [.notifyPost url]
  | 1 => [.notifyPost url, .sleep 2, .notifyPost url]
  | 2 => [.notifyPost url, .sleep 2, .notifyPost url, .sleep 4, .notifyPost url]
  | _ => [.notifyPost url, .sleep 2, .notifyPost url, .sleep 4, .notifyPost url,
          .sleep 8, .notifyPost url]

/-- A parseable body with none of the optional fields. -/
def bOk : Body := ⟨true, [], none, none, none⟩

/-- An unparseable body (`.json()` raises). -/
def bBad : Body := ⟨false, [], none, none, none⟩

/-- A body whose commit sha is `"abc"`. -/
def bSha : Body := ⟨true, [], some "abc", none, none⟩

/-- A 422 body whose error list mentions an existing repository. -/
def bExists : Body := ⟨true, ["name already exists on this account"], none, none, none⟩

/-- A GET response body carrying the current file sha. -/
def bGetSha : Body := ⟨true, [], none, none, some "oldsha"⟩

/-- A world whose every call raises a network exception. -/
def wNetErr : Nat → CallResult := fun _ => .netError

/-- A world whose every call answers 200 with an empty parseable body. -/
def wOk200 : Nat → CallResult := fun _ => .response ⟨200, bOk⟩

/-- A world whose every call answers 201 with a commit sha `"abc"`. -/
def wClean : Nat → CallResult := fun _ => .response ⟨201, bSha⟩

/-- A world whose every call answers 500. -/
def wErr500 : Nat → CallResult := fun _ => .response ⟨500, bOk⟩

/-- A world where the file PUT answers 422 and the follow-up GET answers
500. -/
def w3cex : Nat → CallResult := fun i =>
  if i = 0 then .response ⟨422, bOk⟩ else .response ⟨500, bOk⟩

/-- A world where the file PUT answers 422, the GET answers 200 with a
sha, and the retried PUT answers 500. -/
def w3wit : Nat → CallResult := fun i =>
  if i = 0 then .response ⟨422, bOk⟩
  else if i = 1 then .response ⟨200, bGetSha⟩
  else .response ⟨500, bOk⟩

/-- A world whose every call answers 422 with an "already exists" error. -/
def w4wit : Nat → CallResult := fun _ => .response ⟨422, bExists⟩

/-- A world where repo creation succeeds, both required PUTs answer 201
with unparseable bodies, the LICENSE PUT answers 500 and the pages call
answers 204. -/
def w10w : Nat → CallResult := fun i =>
  if i = 0 then .response ⟨201, bOk⟩
  else if i = 1 then .response ⟨201, bBad⟩
  else if i = 2 then .response ⟨201, bBad⟩
  else if i = 3 then .response ⟨500, bOk⟩
  else .response ⟨204, bOk⟩

/-- A world where creation and the two required PUTs succeed but the
LICENSE PUT and the pages call both answer 500. -/
def wC6wit : Nat → CallResult := fun i =>
  if i ≤ 2 then .response ⟨201, bSha⟩ else .response ⟨500, bOk⟩

/-- `wClean` up to the pages call, then network errors: the notifier
fails on every attempt. -/
def wC7wit : Nat → CallResult := fun i =>
  if i < 5 then .response ⟨201, bSha⟩ else .netError

/-- A sample evaluator payload. -/
def pay0 : Payload := ⟨none, "t", "r", "p", none⟩

/-! ## Helper lemmas -/

lemma errNe1 : ("Failed to create repo" : String) ≠ "Invalid secret" := by decide

lemma errNe2 : ("Failed to push index.html" : String) ≠ "Invalid secret" := by decide

lemma errNe3 : ("Failed to push README.md" : String) ≠ "Invalid secret" := by decide

lemma create_repo_trace (w : Nat → CallResult) (k : Nat) (n : String) :
    (create_repo w k n).2.2 = [Event.createRepoCall n] := by
  unfold create_repo
  cases hw : w k with
  | netError => rfl
  | response r =>
    dsimp only
    repeat' split
    all_goals rfl

lemma handle_pass (w : Nat → CallResult) (now year : Nat)
    (user : String) (req : InboundRequest) :
    (handle w now year req.secret user req).1 ≠ .ok (.error "Invalid secret") ∧
    (handle w now year req.secret user req).2.2.head? =
      some (.createRepoCall
        ("tds_" ++ req.task.getD "demo_task" ++ "_" ++ toString (now % 10000))) := by
  unfold handle
  rw [if_neg (by simp)]
  dsimp only
  set rn := "tds_" ++ req.task.getD "demo_task" ++ "_" ++ toString (now % 10000) with hrn
  rcases hc : create_repo w 0 rn with ⟨pc, kc, tc⟩
  have htc : tc = [Event.createRepoCall rn] := by
    have h := create_repo_trace w 0 rn
    rw [hc] at h
    exact h
  subst htc
  cases pc with
  | exn => simp
  | ok cr =>
    dsimp only
    by_cases hcr : cr = false
    · rw [if_pos hcr]
      exact ⟨by simp [errNe1], by simp⟩
    · rw [if_neg hcr]
      rcases hp1 : push_file w kc rn "index.html" (htmlFor rn) with ⟨pp1, k2, t2⟩
      cases pp1 with
      | exn => simp
      | ok v1 =>
        obtain ⟨b1, s1⟩ := v1
        dsimp only
        by_cases hb1 : b1 = false
        · rw [if_pos hb1]
          exact ⟨by simp [errNe2], by simp⟩
        · rw [if_neg hb1]
          rcases hp2 : push_file w k2 rn "README.md"
              (readmeFor rn (req.task.getD "demo_task")) with ⟨pp2, k3, t3⟩
          cases pp2 with
          | exn => simp
          | ok v2 =>
            obtain ⟨b2, s2⟩ := v2
            dsimp only
            by_cases hb2 : b2 = false
            · rw [if_pos hb2]
              exact ⟨by simp [errNe3], by simp⟩
            · rw [if_neg hb2]
              rcases hp3 : push_file w k3 rn "LICENSE" (licenseFor year user)
                with ⟨pp3, k4, t4⟩
              cases pp3 with
              | exn => simp
              | ok v3 =>
                dsimp only
                rcases hp4 : enable_pages w k4 rn with ⟨pp4, k5, t5⟩
                cases pp4 with
                | exn => simp
                | ok v4 => exact ⟨by simp, by simp⟩

/-! ## Claims C1 and C8 -/

/-- C1 (amended): a request whose `secret` field differs from the
configured shared-secret value (a missing field and an unset secret both
compared as `None`) gets the response `\x7bstatus: error, reason: Invalid
secret\x7d` and no outbound call is made. -/
theorem c1_invalid_secret (w : Nat → CallResult) (now year : Nat)
    (sec : Option String) (user : String) (req : InboundRequest)
    (h : req.secret ≠ sec) :
    handle w now year sec user req = (.ok (.error "Invalid secret"), 0, []) := by
  unfold handle
  rw [if_pos h]

/-- Witness for C1: a wrong secret is rejected with no outbound call. -/
theorem c1_invalid_secret_witness :
    handle wErr500 0 2025 (some "s1") "u" ⟨some "bad", none, none, none⟩ =
      (.ok (.error "Invalid secret"), 0, []) :=
  c1_invalid_secret wErr500 0 2025 (some "s1") "u" ⟨some "bad", none, none, none⟩
    (by decide)

/-- C1 counterexample: with the shared secret unset (`None`) and the
`secret` field missing, the handler does NOT answer `Invalid secret`; it
proceeds and makes an outbound repository-creation call. -/
theorem c1_counterexample :
    (handle wErr500 0 2025 none "u" ⟨none, none, none, none⟩).1 ≠
        .ok (.error "Invalid secret") ∧
      (handle wErr500 0 2025 none "u" ⟨none, none, none, none⟩).1 =
        .ok (.error "Failed to create repo") ∧
      (handle wErr500 0 2025 none "u" ⟨none, none, none, none⟩).2.2 =
        [.createRepoCall "tds_demo_task_0"] := by
  refine ⟨by decide, rfl, rfl⟩

/-- C8: when the configured shared secret is unset (`None`), a request
whose body omits `secret` passes validation (`None == None`) and the
handler proceeds to provisioning (its first outbound call is the
repository creation) instead of returning the `Invalid secret` error. -/
theorem c8_unset_secret (w : Nat → CallResult) (now year : Nat) (user : String)
    (task email eurl : Option String) :
    (handle w now year none user ⟨none, task, email, eurl⟩).1 ≠
        .ok (.error "Invalid secret") ∧
      (handle w now year none user ⟨none, task, email, eurl⟩).2.2.head? =
        some (.createRepoCall
          ("tds_" ++ task.getD "demo_task" ++ "_" ++ toString (now % 10000))) :=
  handle_pass w now year user ⟨none, task, email, eurl⟩


lemma notify_allfail (w : Nat → CallResult) (k : Nat) (url : String)
    (p : Payload) (m : Nat) (h : ∀ i, i < 4 → attemptOK w (k + i) = false) :
    notify_evaluator w k url p m =
      (false, k + 4,
        [.notifyPost url, .sleep 2, .notifyPost url, .sleep 4,
         .notifyPost url, .sleep 8, .notifyPost url, .sleep 16]) := by
  have f0 : attemptOK w k = false := by simpa using h 0 (by omega)
  have f1 : attemptOK w (k + 1) = false := h 1 (by omega)
  have f2 : attemptOK w (k + 1 + 1) = false := h 2 (by omega)
  have f3 : attemptOK w (k + 1 + 1 + 1) = false := h 3 (by omega)
  simp [notify_evaluator, notifyLoop, f0, f1, f2, f3]

lemma notify_firstSuccess (w : Nat → CallResult) (k : Nat) (url : String)
    (p : Payload) (m : Nat) (j : Nat) (hj : j < 4)
    (hfail : ∀ i, i < j → attemptOK w (k + i) = false)
    (hsucc : attemptOK w (k + j) = true) :
    notify_evaluator w k url p m = (true, k + j + 1, successTrace url j) := by
  interval_cases j
  · have s0 : attemptOK w k = true := by simpa using hsucc
    simp [notify_evaluator, notifyLoop, s0, successTrace]
  · have f0 : attemptOK w k = false := by simpa using hfail 0 (by omega)
    have s1 : attemptOK w (k + 1) = true := hsucc
    simp [notify_evaluator, notifyLoop, f0, s1, successTrace]
  · have f0 : attemptOK w k = false := by simpa using hfail 0 (by omega)
    have f1 : attemptOK w (k + 1) = false := hfail 1 (by omega)
    have s2 : attemptOK w (k + 1 + 1) = true := hsucc
    simp [notify_evaluator, notifyLoop, f0, f1, s2, successTrace]
  · have f0 : attemptOK w k = false := by simpa using hfail 0 (by omega)
    have f1 : attemptOK w (k + 1) = false := hfail 1 (by omega)
    have f2 : attemptOK w (k + 1 + 1) = false := hfail 2 (by omega)
    have s3 : attemptOK w (k + 1 + 1 + 1) = true := hsucc
    simp [notify_evaluator, notifyLoop, f0, f1, f2, s3, successTrace]

lemma notifyLoop_posts_le (w : Nat → CallResult) (url : String) (ds : List Nat) :
    ∀ k, ((notifyLoop w url k ds).2.2.countP isNotifyPost) ≤ ds.length := by
  induction ds with
  | nil => intro k; simp [notifyLoop]
  | cons d rest ih =>
    intro k
    by_cases h : attemptOK w k
    · simp [notifyLoop, h, List.countP_cons, isNotifyPost]
    · have := ih (k + 1)
      simp [notifyLoop, h, List.countP_cons, isNotifyPost]
      omega

/-! ## Claims C2 and C9 -/

/-- C2: when every attempt fails, `notify_evaluator` makes exactly 4 POST
attempts with sleeps of 2, 4, 8, 16 seconds after the corresponding failed
attempts (including after the fourth) and returns false; it returns true
as soon as some attempt gets a 2xx status, making no further attempts and
no trailing sleep. -/
theorem c2_notify_retry (w : Nat → CallResult) (k : Nat) (url : String)
    (p : Payload) (m : Nat) :
    ((∀ i, i < 4 → attemptOK w (k + i) = false) →
      notify_evaluator w k url p m =
        (false, k + 4,
          [.notifyPost url, .sleep 2, .notifyPost url, .sleep 4,
           .notifyPost url, .sleep 8, .notifyPost url, .sleep 16]))
    ∧ (∀ j, j < 4 → (∀ i, i < j → attemptOK w (k + i) = false) →
        attemptOK w (k + j) = true →
        notify_evaluator w k url p m = (true, k + j + 1, successTrace url j)) :=
  ⟨notify_allfail w k url p m,
   fun j hj hf hs => notify_firstSuccess w k url p m j hj hf hs⟩

/-- Witness for C2: all attempts raising gives 4 POSTs and the full sleep
schedule; an immediate 200 gives a single POST and success. -/
theorem c2_notify_retry_witness :
    notify_evaluator wNetErr 0 "u" pay0 4 =
        (false, 4,
          [.notifyPost "u", .sleep 2, .notifyPost "u", .sleep 4,
           .notifyPost "u", .sleep 8, .notifyPost "u", .sleep 16])
    ∧ notify_evaluator wOk200 0 "u" pay0 4 = (true, 1, [.notifyPost "u"]) :=
  ⟨(c2_notify_retry wNetErr 0 "u" pay0 4).1 (fun i _ => rfl),
   (c2_notify_retry wOk200 0 "u" pay0 4).2 0 (by omega)
     (fun i hi => absurd hi (by omega)) rfl⟩

/-- C9: `notify_evaluator` ignores its `max_retries` argument entirely:
any two values give identical behaviour, the number of POST attempts never
exceeds the length of the fixed delay list (4), and equals 4 whenever
every attempt fails. -/
theorem c9_max_retries_unused (w : Nat → CallResult) (k : Nat) (url : String)
    (p : Payload) :
    (∀ m1 m2, notify_evaluator w k url p m1 = notify_evaluator w k url p m2)
    ∧ (∀ m, (notify_evaluator w k url p m).2.2.countP isNotifyPost ≤ 4)
    ∧ (∀ m, (∀ i, i < 4 → attemptOK w (k + i) = false) →
        (notify_evaluator w k url p m).2.2.countP isNotifyPost = 4) := by
  refine ⟨fun _ _ => rfl, fun m => ?_, fun m h => ?_⟩
  · simpa [notify_evaluator] using notifyLoop_posts_le w url [2, 4, 8, 16] k
  · rw [notify_allfail w k url p m h]
    rfl

/-- Witness for C9: with every call raising, `max_retries` values 0 and 99
behave identically and exactly 4 POSTs happen. -/
theorem c9_max_retries_unused_witness :
    notify_evaluator wNetErr 0 "u" pay0 0 = notify_evaluator wNetErr 0 "u" pay0 99
    ∧ (notify_evaluator wNetErr 0 "u" pay0 5).2.2.countP isNotifyPost = 4 :=
  ⟨(c9_max_retries_unused wNetErr 0 "u" pay0).1 0 99,
   (c9_max_retries_unused wNetErr 0 "u" pay0).2.2 5 (fun i _ => rfl)⟩

/-! ## Claims C3 and C4 -/

/-- C3 counterexample: the initial file PUT returns 422 but the follow-up
GET returns 500, so `push_file` stops after the GET: exactly one GET
happens and NO retried PUT is performed, contradicting the claim that a
422 is always followed by one GET then one retried PUT. -/
theorem c3_counterexample :
    w3cex 0 = .response ⟨422, bOk⟩
    ∧ push_file w3cex 0 "r" "index.html" "c" =
        (.ok (false, none), 2, [.putFile "r" "index.html" none, .getFile "r" "index.html"])
    ∧ (push_file w3cex 0 "r" "index.html" "c").2.2.countP isRetriedPut = 0 := by
  refine ⟨rfl, rfl, rfl⟩

/-- C3 (amended): when the initial PUT returns 422, `push_file` performs
exactly one GET; if that GET returns a 200 response with a parseable body
carrying a non-empty sha, it performs exactly one retried PUT carrying
that sha, and if the retried PUT returns neither 200 nor 201 the function
returns failure having made no further calls; if the GET returns a
non-200 response, no retried PUT is made and the function returns
failure. -/
theorem c3_422_get_then_retry (w : Nat → CallResult) (k : Nat)
    (repo p c : String) (r : Response) (hw : w k = .response r)
    (h422 : r.status = 422) :
    (∀ g s r2, w (k + 1) = .response g → g.status = 200 →
      g.body.parseable = true → g.body.sha = some s → s ≠ "" →
      w (k + 2) = .response r2 → r2.status ≠ 200 → r2.status ≠ 201 →
      push_file w k repo p c =
        (.ok (false, none), k + 3,
          [.putFile repo p none, .getFile repo p, .putFile repo p (some s)]))
    ∧ (∀ g, w (k + 1) = .response g → g.status ≠ 200 →
        push_file w k repo p c =
          (.ok (false, none), k + 2, [.putFile repo p none, .getFile repo p])) := by
  have hs1 : ¬(r.status = 200 ∨ r.status = 201) := by omega
  constructor
  · intro g s r2 hg hg200 hgp hgsha hsne hr2 hn200 hn201
    unfold push_file
    rw [hw]
    dsimp only
    rw [if_neg hs1, if_pos h422, hg]
    dsimp only
    rw [if_pos hg200, if_pos hgp, hgsha]
    dsimp only
    rw [if_neg hsne, hr2]
    dsimp only
    rw [if_neg (show ¬(r2.status = 200 ∨ r2.status = 201) by omega)]
  · intro g hg hgn
    unfold push_file
    rw [hw]
    dsimp only
    rw [if_neg hs1, if_pos h422, hg]
    dsimp only
    rw [if_neg hgn]

/-- Witness for C3: a 422 PUT, a 200 GET carrying sha "oldsha", and a 500
retried PUT give failure after exactly three calls; a 422 PUT with a 500
GET gives failure after exactly two calls. -/
theorem c3_422_get_then_retry_witness :
    push_file w3wit 0 "r" "f" "c" =
        (.ok (false, none), 3,
          [.putFile "r" "f" none, .getFile "r" "f", .putFile "r" "f" (some "oldsha")])
    ∧ push_file w3cex 0 "r" "f" "c" =
        (.ok (false, none), 2, [.putFile "r" "f" none, .getFile "r" "f"]) :=
  ⟨(c3_422_get_then_retry w3wit 0 "r" "f" "c" ⟨422, bOk⟩ rfl rfl).1
      ⟨200, bGetSha⟩ "oldsha" ⟨500, bOk⟩ rfl rfl rfl rfl (by decide) rfl
      (by decide) (by decide),
   (c3_422_get_then_retry w3cex 0 "r" "f" "c" ⟨422, bOk⟩ rfl rfl).2
      ⟨500, bOk⟩ rfl (by decide)⟩

/-- C4: `create_repo` succeeds exactly when the creation call returns 201,
or returns 422 with a parseable body some of whose error messages contains
"already exists" (case-insensitively); every other response yields the
failure value `false` (never an exception). -/
theorem c4_create_repo_success (w : Nat → CallResult) (k : Nat) (n : String)
    (r : Response) (hw : w k = .response r) :
    ((create_repo w k n).1 = .ok true ↔
      (r.status = 201 ∨ (r.status = 422 ∧ r.body.parseable = true ∧
        ∃ m ∈ r.body.errors, strContains (pyLower m) "already exists" = true)))
    ∧ ((create_repo w k n).1 = .ok true ∨ (create_repo w k n).1 = .ok false) := by
  unfold create_repo
  rw [hw]
  by_cases h201 : r.status = 201
  · simp [h201]
  · by_cases h422 : r.status = 422
    · by_cases hp : r.body.parseable
      · by_cases he : r.body.errors.any (fun m => strContains (pyLower m) "already exists")
        · rw [List.any_eq_true] at he
          simp [h201, h422, hp, he]
        · rw [List.any_eq_true] at he
          simp [h201, h422, hp, he]
      · simp [h201, h422, hp]
    · simp [h201, h422]

/-- Witness for C4: a 422 response whose error list mentions an existing
repository name is treated as success. -/
theorem c4_create_repo_success_witness :
    (create_repo w4wit 0 "n").1 = .ok true :=
  (c4_create_repo_success w4wit 0 "n" ⟨422, bExists⟩ rfl).1.mpr
    (Or.inr ⟨rfl, rfl, "name already exists on this account", by decide, by decide⟩)

/-! ## Clean-path helper lemmas -/

lemma create_repo_201 (w : Nat → CallResult) (k : Nat) (n : String) (r : Response)
    (hw : w k = .response r) (hs : r.status = 201) :
    create_repo w k n = (.ok true, k + 1, [.createRepoCall n]) := by
  unfold create_repo
  rw [hw]
  dsimp only
  rw [if_pos hs]

lemma push_file_2xx (w : Nat → CallResult) (k : Nat) (repo p c : String)
    (r : Response) (hw : w k = .response r)
    (hs : r.status = 200 ∨ r.status = 201) :
    push_file w k repo p c =
      (.ok (true, shaOfResp r), k + 1, [.putFile repo p none]) := by
  unfold push_file
  rw [hw]
  dsimp only
  rw [if_pos hs]

lemma push_file_fail_other (w : Nat → CallResult) (k : Nat) (repo p c : String)
    (r : Response) (hw : w k = .response r)
    (h1 : ¬(r.status = 200 ∨ r.status = 201)) (h2 : r.status ≠ 422) :
    push_file w k repo p c = (.ok (false, none), k + 1, [.putFile repo p none]) := by
  unfold push_file
  rw [hw]
  dsimp only
  rw [if_neg h1, if_neg h2]

lemma push_file_no422 (w : Nat → CallResult) (k : Nat) (repo p c : String)
    (r : Response) (hw : w k = .response r) (h : r.status ≠ 422) :
    ∃ v, push_file w k repo p c = (.ok v, k + 1, [.putFile repo p none]) := by
  by_cases hs : r.status = 200 ∨ r.status = 201
  · exact ⟨_, push_file_2xx w k repo p c r hw hs⟩
  · exact ⟨_, push_file_fail_other w k repo p c r hw hs h⟩

lemma enable_pages_resp (w : Nat → CallResult) (k : Nat) (n : String)
    (r : Response) (hw : w k = .response r) :
    enable_pages w k n =
      (.ok (decide (r.status = 201 ∨ r.status = 204)), k + 1, [.pagesCall n]) := by
  unfold enable_pages
  rw [hw]

lemma handle_clean (w : Nat → CallResult) (now year : Nat) (user : String)
    (req : InboundRequest) (r0 r1 r2 r3 r4 : Response)
    (h0 : w 0 = .response r0) (h0s : r0.status = 201)
    (h1 : w 1 = .response r1) (h1s : r1.status = 200 ∨ r1.status = 201)
    (h2 : w 2 = .response r2) (h2s : r2.status = 200 ∨ r2.status = 201)
    (h3 : w 3 = .response r3) (h3s : r3.status ≠ 422)
    (h4 : w 4 = .response r4) :
    (handle w now year req.secret user req).1 =
      .ok (.success
        ("https://github.com/" ++ user ++ "/" ++
          ("tds_" ++ req.task.getD "demo_task" ++ "_" ++ toString (now % 10000)))
        ("https://" ++ user ++ ".github.io/" ++
          ("tds_" ++ req.task.getD "demo_task" ++ "_" ++ toString (now % 10000)) ++ "/")
        (pyOr (shaOfResp r1) (shaOfResp r2))) := by
  unfold handle
  rw [if_neg (by simp)]
  dsimp only
  set rn := "tds_" ++ req.task.getD "demo_task" ++ "_" ++ toString (now % 10000) with hrn
  obtain ⟨v3, hp3⟩ := push_file_no422 w 3 rn "LICENSE" (licenseFor year user) r3 h3 h3s
  simp [create_repo_201 w 0 rn r0 h0 h0s,
    push_file_2xx w 1 rn "index.html" (htmlFor rn) r1 h1 h1s,
    push_file_2xx w 2 rn "README.md" (readmeFor rn (req.task.getD "demo_task")) r2 h2 h2s,
    hp3, enable_pages_resp w 4 rn r4 h4]

/-! ## Claims C5, C6, C7, C10 -/

/-- C5: when the secret matches and repository creation (201) and both
required file PUTs (200/201) succeed, the handler answers success with a
repo URL naming `tds_<task>_<time mod 10000>`, a pages URL of the form
`https://<user>.github.io/<repo>/`, and a commit equal to the sha reported
for index.html, falling back to the sha reported for README.md. -/
theorem c5_success_response (w : Nat → CallResult) (now year : Nat)
    (sec : Option String) (user : String) (req : InboundRequest)
    (r0 r1 r2 r3 r4 : Response) (hsec : req.secret = sec)
    (h0 : w 0 = .response r0) (h0s : r0.status = 201)
    (h1 : w 1 = .response r1) (h1s : r1.status = 200 ∨ r1.status = 201)
    (h2 : w 2 = .response r2) (h2s : r2.status = 200 ∨ r2.status = 201)
    (h3 : w 3 = .response r3) (h3s : r3.status ≠ 422)
    (h4 : w 4 = .response r4) :
    (handle w now year sec user req).1 =
      .ok (.success
        ("https://github.com/" ++ user ++ "/" ++
          ("tds_" ++ req.task.getD "demo_task" ++ "_" ++ toString (now % 10000)))
        ("https://" ++ user ++ ".github.io/" ++
          ("tds_" ++ req.task.getD "demo_task" ++ "_" ++ toString (now % 10000)) ++ "/")
        (pyOr (shaOfResp r1) (shaOfResp r2))) := by
  subst hsec
  exact handle_clean w now year user req r0 r1 r2 r3 r4 h0 h0s h1 h1s h2 h2s h3 h3s h4

/-- Witness for C5: with secret "s1", task "demo", time 123 and every call
answering 201 with commit sha "abc", the response is a success naming
`tds_demo_123`. -/
theorem c5_success_response_witness :
    (handle wClean 123 2025 (some "s1") "u" ⟨some "s1", some "demo", none, none⟩).1 =
      .ok (.success "https://github.com/u/tds_demo_123"
        "https://u.github.io/tds_demo_123/" (some "abc")) := by
  have h := c5_success_response wClean 123 2025 (some "s1") "u"
    ⟨some "s1", some "demo", none, none⟩ ⟨201, bSha⟩ ⟨201, bSha⟩ ⟨201, bSha⟩
    ⟨201, bSha⟩ ⟨201, bSha⟩ rfl rfl rfl rfl (by decide) rfl (by decide) rfl
    (by decide) rfl
  exact h.trans (by decide)

/-- C6: `enable_pages` succeeds exactly when the hosting call returns 201
or 204, and a failing LICENSE PUT together with a failing hosting call
leaves the handler's response a success whenever creation and the two
required pushes succeeded. -/
theorem c6_nonfatal_best_effort :
    (∀ w k n r, w k = CallResult.response r →
      ((enable_pages w k n).1 = .ok true ↔ (r.status = 201 ∨ r.status = 204)))
    ∧ (∀ w now year sec user req r0 r1 r2 r3 r4,
        req.secret = sec →
        w 0 = CallResult.response r0 → r0.status = 201 →
        w 1 = CallResult.response r1 → (r1.status = 200 ∨ r1.status = 201) →
        w 2 = CallResult.response r2 → (r2.status = 200 ∨ r2.status = 201) →
        w 3 = CallResult.response r3 →
        ¬(r3.status = 200 ∨ r3.status = 201) → r3.status ≠ 422 →
        w 4 = CallResult.response r4 → ¬(r4.status = 201 ∨ r4.status = 204) →
        (handle w now year sec user req).1 =
          .ok (.success
            ("https://github.com/" ++ user ++ "/" ++
              ("tds_" ++ req.task.getD "demo_task" ++ "_" ++ toString (now % 10000)))
            ("https://" ++ user ++ ".github.io/" ++
              ("tds_" ++ req.task.getD "demo_task" ++ "_" ++ toString (now % 10000)) ++ "/")
            (pyOr (shaOfResp r1) (shaOfResp r2)))) := by
  constructor
  · intro w k n r hw
    rw [enable_pages_resp w k n r hw]
    simp
  · intro w now year sec user req r0 r1 r2 r3 r4 hsec h0 h0s h1 h1s h2 h2s h3 h3f h3s h4 h4f
    subst hsec
    exact handle_clean w now year user req r0 r1 r2 r3 r4 h0 h0s h1 h1s h2 h2s h3 h3s h4

/-- Witness for C6: a 201 hosting call succeeds, and with the LICENSE PUT
and the hosting call both answering 500 the response is still a success. -/
theorem c6_nonfatal_best_effort_witness :
    (enable_pages wClean 0 "n").1 = .ok true
    ∧ (handle wC6wit 7 2025 (some "s") "u" ⟨some "s", some "t", none, none⟩).1 =
        .ok (.success "https://github.com/u/tds_t_7" "https://u.github.io/tds_t_7/"
          (some "abc")) := by
  constructor
  · exact (c6_nonfatal_best_effort.1 wClean 0 "n" ⟨201, bSha⟩ rfl).mpr (Or.inl rfl)
  · have h := c6_nonfatal_best_effort.2 wC6wit 7 2025 (some "s") "u"
      ⟨some "s", some "t", none, none⟩ ⟨201, bSha⟩ ⟨201, bSha⟩ ⟨201, bSha⟩
      ⟨500, bOk⟩ ⟨500, bOk⟩ rfl rfl rfl rfl (by decide) rfl (by decide) rfl
      (by decide) (by decide) rfl (by decide)
    exact h.trans (by decide)

/-- C7: for a request that reaches the notification step, the handler's
response is the same for any two worlds that agree on the five
provisioning calls and differ arbitrarily afterwards — in particular
whether the evaluator notification succeeds or fails on any attempt has no
influence on the response. -/
theorem c7_notify_independent (w w' : Nat → CallResult) (now year : Nat)
    (sec : Option String) (user : String) (req : InboundRequest) (u : String)
    (r0 r1 r2 r3 r4 : Response) (hsec : req.secret = sec)
    (hagree : ∀ i, i < 5 → w' i = w i)
    (h0 : w 0 = .response r0) (h0s : r0.status = 201)
    (h1 : w 1 = .response r1) (h1s : r1.status = 200 ∨ r1.status = 201)
    (h2 : w 2 = .response r2) (h2s : r2.status = 200 ∨ r2.status = 201)
    (h3 : w 3 = .response r3) (h3s : r3.status ≠ 422)
    (h4 : w 4 = .response r4)
    (hurl : req.evaluation_url = some u) (hne : u ≠ "") :
    (handle w now year sec user req).1 = (handle w' now year sec user req).1 := by
  subst hsec
  have e0 : w' 0 = .response r0 := (hagree 0 (by omega)).trans h0
  have e1 : w' 1 = .response r1 := (hagree 1 (by omega)).trans h1
  have e2 : w' 2 = .response r2 := (hagree 2 (by omega)).trans h2
  have e3 : w' 3 = .response r3 := (hagree 3 (by omega)).trans h3
  have e4 : w' 4 = .response r4 := (hagree 4 (by omega)).trans h4
  exact (handle_clean w now year user req r0 r1 r2 r3 r4 h0 h0s h1 h1s h2 h2s h3
    h3s h4).trans
    (handle_clean w' now year user req r0 r1 r2 r3 r4 e0 h0s e1 h1s e2 h2s e3
      h3s e4).symm

/-- Witness for C7: the notification succeeding immediately (`wClean`) and
failing on all four attempts (`wC7wit`) produce the same response. -/
theorem c7_notify_independent_witness :
    (handle wClean 7 2025 (some "s") "u" ⟨some "s", some "t", none, some "http"⟩).1 =
      (handle wC7wit 7 2025 (some "s") "u" ⟨some "s", some "t", none, some "http"⟩).1 :=
  c7_notify_independent wClean wC7wit 7 2025 (some "s") "u"
    ⟨some "s", some "t", none, some "http"⟩ "http" ⟨201, bSha⟩ ⟨201, bSha⟩
    ⟨201, bSha⟩ ⟨201, bSha⟩ ⟨201, bSha⟩ rfl
    (fun i hi => by simp [wC7wit, wClean, hi])
    rfl rfl rfl (by decide) rfl (by decide) rfl (by decide) rfl rfl (by decide)

/-- C10: a 200/201 PUT whose body is unparseable yields success with no
sha, so a fully successful request can answer `status: success` with
`commit = none`. -/
theorem c10_commit_can_be_null :
    push_file w10w 1 "r" "index.html" "x" =
        (.ok (true, none), 2, [.putFile "r" "index.html" none])
    ∧ (handle w10w 3 2025 (some "s") "u" ⟨some "s", some "demo", none, none⟩).1 =
        .ok (.success "https://github.com/u/tds_demo_3" "https://u.github.io/tds_demo_3/"
          none) := by
  refine ⟨rfl, rfl⟩
